import Mathlib

/-!
Verification development for the document forgery detection backend
(`src/backend/main.py`).

The embedding models the `POST /api/analyze` request handler
`analyze_document` (main.py lines 50-128) and the helper
`extract_metadata` (lines 130-156) as pure Lean functions.

Modelling decisions, each tied to the source:

* JSON-like values carried in metadata dictionaries are `Value`
  (strings, numbers, null).  A Python dict is an association list
  `Dict := List (String × Value)`; Python dicts have unique keys, so
  first-match lookup (`Dict.find`) is the dict lookup.  The dict merge
  `\x7b**a, **b\x7d` is `Dict.merge a b`: keys of `a` in order, each with the
  value from `b` when `b` also binds that key (later bindings override
  earlier ones in Python), followed by the keys only `b` has.

* The external collaborators (PDF/DOCX metadata extractors and the
  Text/Image/Signature analyzers, imported at main.py lines 11-15 and
  not part of the examined source) are an environment `Env` of fixed
  functions.  Each receives the bytes of the temporary file (the handler
  writes the upload there at line 72, so the content at `temp_file_path`
  is the upload content) and, for the analyzers, the `file_info` dict
  built at lines 77-82.  A fault raised by a collaborator is an
  `Except.error` carrying `str(e)` of the Python exception.

* `mimetypes.guess_type(filename)[0]` (line 80) is `Env.guessType`.

* Fallible OS effects that the handler is exposed to are part of `Env`:
  `copyFault` is a fault raised by `shutil.copyfileobj` (line 72, inside
  the `with` block but before the inner `try`), and `unlinkFault` is a
  fault raised by `os.unlink` (line 123, inside the `finally`).  `none`
  means the operation succeeds.

* Python exceptions are `PyExc`; `fastapi.HTTPException` is a subclass
  of `Exception`, so the handler at line 126 (`except Exception as e`)
  catches the 400 `HTTPException`s it raised itself at lines 58 and 65
  and re-raises `HTTPException(500, f"Analysis failed: \x7bstr(e)\x7d")`.
  `strExc` renders `str(e)`; for `HTTPException`, Starlette defines
  `__str__` as `f"\x7bself.status_code\x7d: \x7bself.detail\x7d"`.

* Wall-clock timestamps (`datetime.now().isoformat()` at lines 81 and
  117) are explicit parameters `uploadTime` / `analysisTime`.

* The observable outcome of a run is `RunResult`: the HTTP response
  (success body or error status/detail) together with whether the
  temporary file was created and whether it still exists on disk after
  the handler returns.
-/

set_option autoImplicit false

namespace DocForgery

/-- A JSON-like value stored in a metadata dictionary. -/
inductive Value where
  | str : String → Value
  | nat : Nat → Value
  | null : Value
  deriving Repr, DecidableEq

/-- A Python dict, as an association list with unique keys. -/
abbrev Dict := List (String × Value)

/-- Python dict lookup: the binding of the first matching key. -/
def Dict.find : Dict → String → Option Value
  | [], _ => none
  | p :: rest, k => if p.1 = k then some p.2 else Dict.find rest k

/-- The Python merge `\x7b**a, **b\x7d`: the keys of `a` in order, each bound
to the value from `b` when `b` also binds the key (in Python the later
binding overrides the earlier one), followed by the bindings of `b`
whose keys `a` does not have. -/
def Dict.merge (a b : Dict) : Dict :=
  a.map (fun p => (p.1, (Dict.find b p.1).getD p.2)) ++
    b.filter (fun p => (Dict.find a p.1).isNone)

/-- Lookup into an extractor result, for stating properties of
`extract_metadata`.  Source: the dict returned at main.py lines 144,
148 or 151-156. -/
def metadataFind (r : Except String Dict) (k : String) : Option Value :=
  match r with
  | .ok d => Dict.find d k
  | .error _ => none

/-- Whether an `Except` computation succeeded. -/
def isOkE {ε α : Type} : Except ε α → Bool
  | .ok _ => true
  | .error _ => false

/-- The `file_info` dict built at main.py lines 77-82. -/
structure FileInfo where
  filename : String
  size : Nat
  type : Option String
  uploadTime : String
  deriving Repr, DecidableEq

/-- A Python exception in flight inside `analyze_document`:
either a `fastapi.HTTPException` (status code, detail) or any other
exception rendered by its message. -/
inductive PyExc where
  | httpExc : Nat → String → PyExc
  | exc : String → PyExc
  deriving Repr, DecidableEq

/-- Python `str(e)`.  For `HTTPException`, Starlette renders
`"\x7bstatus_code\x7d: \x7bdetail\x7d"`; for a generic exception the message. -/
def strExc : PyExc → String
  | .httpExc code detail => toString code ++ ": " ++ detail
  | .exc msg => msg

/-- The `except Exception as e` handler at main.py lines 126-128: every
exception escaping the body becomes
`HTTPException(500, f"Analysis failed: \x7bstr(e)\x7d")`. -/
def handleOuter (e : PyExc) : Nat × String :=
  (500, "Analysis failed: " ++ strExc e)

/-- An uploaded file as the handler sees it: `file.filename` (empty
string models a missing/empty filename, which is falsy at line 57),
the bytes returned by `await file.read()` (line 61), and
`file.content_type` (`some ""` models an empty, falsy content type). -/
structure Upload where
  filename : String
  content : List Nat
  contentType : Option String

/-- The external collaborators and fallible OS effects of one run. -/
structure Env where
  /-- `mimetypes.guess_type(filename)[0]` (main.py line 80). -/
  guessType : String → Option String
  /-- `pdf_analyzer.extract_metadata(file_path)` (line 143), as a fixed
  function of the bytes stored at `file_path`. -/
  pdfExtract : List Nat → Except String Dict
  /-- `docx_analyzer.extract_metadata(file_path)` (line 147). -/
  docxExtract : List Nat → Except String Dict
  /-- `text_analyzer.analyze(temp_file_path, file_info)` (line 99). -/
  textAnalyze : List Nat → FileInfo → Except String Value
  /-- `image_analyzer.analyze(temp_file_path, file_info)` (line 103). -/
  imageAnalyze : List Nat → FileInfo → Except String Value
  /-- `signature_analyzer.analyze(temp_file_path, file_info)` (line 107). -/
  signatureAnalyze : List Nat → FileInfo → Except String Value
  /-- A fault raised by `shutil.copyfileobj` at line 72, if any. -/
  copyFault : Option String
  /-- A fault raised by `os.unlink(temp_file_path)` at line 123, if any. -/
  unlinkFault : Option String

/-- `file.content_type or mimetypes.guess_type(file.filename)[0]`
(main.py line 80): an empty content type string is falsy in Python. -/
def resolvedType (u : Upload) (env : Env) : Option String :=
  match u.contentType with
  | some t => if t = "" then env.guessType u.filename else some t
  | none => env.guessType u.filename

/-- The `file_info` dict of main.py lines 77-82 (`upload_time` is the
`datetime.now().isoformat()` taken at line 81). -/
def fileInfoOf (u : Upload) (env : Env) (uploadTime : String) : FileInfo :=
  { filename := u.filename
    size := u.content.length
    type := resolvedType u env
    uploadTime := uploadTime }

/-- The `base_metadata` dict of main.py lines 132-137. -/
def baseMetadata (fi : FileInfo) : Dict :=
  [("filename", .str fi.filename),
   ("size", .nat fi.size),
   ("type", match fi.type with | some t => .str t | none => .null),
   ("lastModified", .str fi.uploadTime)]

/-- The first Word-processing MIME string of main.py line 145. -/
def wordMimeDocx : String :=
  "application/vnd.openxmlformats-officedocument.wordprocessingml.document"

/-- The second Word-processing MIME string of main.py line 145. -/
def wordMimeDoc : String := "application/msword"

/-- `extract_metadata` (main.py lines 130-156).  `content` is the bytes
stored at `file_path`.  A fault raised by an extractor propagates as
`Except.error`. -/
def extract_metadata (content : List Nat) (fi : FileInfo) (env : Env) :
    Except String Dict :=
  let base_metadata := baseMetadata fi
  let file_type := fi.type
  if file_type = some "application/pdf" then
    match env.pdfExtract content with
    | .ok pdf_metadata => .ok (Dict.merge base_metadata pdf_metadata)
    | .error e => .error e
  else if file_type = some wordMimeDocx ∨ file_type = some wordMimeDoc then
    match env.docxExtract content with
    | .ok docx_metadata => .ok (Dict.merge base_metadata docx_metadata)
    | .error e => .error e
  else
    .ok (Dict.merge base_metadata
      [("author", .str "Not available for this file type"),
       ("createdDate", .null),
       ("modifiedDate", .null)])

/-- The body of the successful `JSONResponse` at main.py lines 111-118
(`success: true` is implicit; `analysisTime` is the timestamp taken at
line 117). -/
structure SuccessBody where
  metadata : Dict
  textAnalysis : Value
  imageAnalysis : Value
  signatureCheck : Value
  analysisTime : String
  deriving Repr, DecidableEq

/-- The inner `try` body of main.py lines 75-118: metadata extraction
then the three sequential analyzer awaits; the first exception
propagates and all earlier sub-results are abandoned. -/
def analysisBody (content : List Nat) (fi : FileInfo) (env : Env)
    (analysisTime : String) : Except String SuccessBody :=
  match extract_metadata content fi env with
  | .error e => .error e
  | .ok metadata =>
    match env.textAnalyze content fi with
    | .error e => .error e
    | .ok text_analysis =>
      match env.imageAnalyze content fi with
      | .error e => .error e
      | .ok image_analysis =>
        match env.signatureAnalyze content fi with
        | .error e => .error e
        | .ok signature_check =>
          .ok { metadata := metadata
                textAnalysis := text_analysis
                imageAnalysis := image_analysis
                signatureCheck := signature_check
                analysisTime := analysisTime }

/-- The observable outcome of one run of `analyze_document`: the HTTP
response (`.ok` body or `.error (status, detail)`), whether the
temporary file was created, and whether it still exists on disk after
the handler returns. -/
structure RunResult where
  response : Except (Nat × String) SuccessBody
  tempCreated : Bool
  tempExistsAfter : Bool
  deriving Repr

/-- The size ceiling `50 * 1024 * 1024` of main.py line 64. -/
def maxFileSize : Nat := 50 * 1024 * 1024

/-- `analyze_document` (main.py lines 50-128).  Control flow traced
from the source:

* line 57: a falsy `file.filename` raises `HTTPException(400, "No file
  provided")`; it is inside the outer `try`, so line 126 catches it and
  line 128 re-raises it as a 500.  No temporary file exists yet.
* line 64: a payload over 50 MiB raises `HTTPException(400, "File too
  large (max 50MB)")`; same outer handler, same 500.  No temporary
  file exists yet.
* lines 71-73: the `with NamedTemporaryFile(delete=False)` block
  creates the file and `shutil.copyfileobj` fills it.  A fault raised
  by the copy leaves the created file on disk (`delete=False`),
  skips the inner `try`/`finally` entirely (it starts only at line
  75), and reaches the outer handler as a 500.
* lines 75-118: the inner `try` body; any fault it raises runs the
  `finally` first and then reaches the outer handler as a 500.
* lines 120-124: the `finally` always finds the file present and calls
  `os.unlink`.  If the unlink raises, that exception replaces any
  in-flight exception or pending return, the file stays on disk, and
  the outer handler turns the unlink fault into a 500. -/
def analyze_document (u : Upload) (env : Env)
    (uploadTime analysisTime : String) : RunResult :=
  if u.filename = "" then
    { response := .error (handleOuter (.httpExc 400 "No file provided"))
      tempCreated := false
      tempExistsAfter := false }
  else if u.content.length > maxFileSize then
    { response := .error (handleOuter (.httpExc 400 "File too large (max 50MB)"))
      tempCreated := false
      tempExistsAfter := false }
  else
    match env.copyFault with
    | some msg =>
      { response := .error (handleOuter (.exc msg))
        tempCreated := true
        tempExistsAfter := true }
    | none =>
      match env.unlinkFault with
      | some msg =>
        { response := .error (handleOuter (.exc msg))
          tempCreated := true
          tempExistsAfter := true }
      | none =>
        match analysisBody u.content (fileInfoOf u env uploadTime) env analysisTime with
        | .ok b =>
          { response := .ok b
            tempCreated := true
            tempExistsAfter := false }
        | .error e =>
          { response := .error (handleOuter (.exc e))
            tempCreated := true
            tempExistsAfter := false }

/-- An environment where every collaborator and OS effect succeeds. -/
def envOk : Env :=
  { guessType := fun _ => none
    pdfExtract := fun _ => .ok []
    docxExtract := fun _ => .ok []
    textAnalyze := fun _ _ => .ok (.str "text-ok")
    imageAnalyze := fun _ _ => .ok (.str "image-ok")
    signatureAnalyze := fun _ _ => .ok (.str "sig-ok")
    copyFault := none
    unlinkFault := none }

/-- `envOk`, except `shutil.copyfileobj` raises at main.py line 72. -/
def envCopyFault : Env := { envOk with copyFault := some "No space left on device" }

/-- `envOk`, except `os.unlink` raises at main.py line 123. -/
def envUnlinkFault : Env := { envOk with unlinkFault := some "Permission denied" }

/-- `envOk`, except the text analyzer raises at main.py line 99. -/
def envTextFault : Env :=
  { envOk with textAnalyze := fun _ _ => .error "text analyzer crashed" }

/-- `envOk`, except the PDF extractor returns a dict that collides with
the base key `filename`. -/
def envPdfOverride : Env :=
  { envOk with pdfExtract := fun _ => .ok [("filename", .str "evil.pdf")] }

/-- `envOk`, except the DOCX extractor returns a dict that collides
with the base key `filename`. -/
def envDocxOverride : Env :=
  { envOk with docxExtract := fun _ => .ok [("filename", .str "evil.docx")] }

/-- `envOk`, except the text analyzer raises and `os.unlink` also
raises during cleanup. -/
def envTextUnlinkFault : Env :=
  { envTextFault with unlinkFault := some "Permission denied" }

/-- A payload one byte over the 50 MiB ceiling. -/
def bigContent : List Nat := List.replicate (maxFileSize + 1) 0

/-- A payload of exactly 50 MiB. -/
def maxContent : List Nat := List.replicate maxFileSize 0

/-- A file-info whose declared type is `application/pdf`. -/
def fiPdf : FileInfo :=
  { filename := "real.pdf", size := 2, type := some "application/pdf", uploadTime := "t0" }

/-- A file-info whose declared type is the DOCX MIME string. -/
def fiDocx : FileInfo :=
  { filename := "doc.docx", size := 2, type := some wordMimeDocx, uploadTime := "t0" }

/-- A file-info with no declared type. -/
def fiPlain : FileInfo :=
  { filename := "note.txt", size := 0, type := none, uploadTime := "t0" }

/-- The concrete metadata dict `extract_metadata` produces for
`fiPlain` under `envOk` (the Generic branch). -/
def dPlain : Dict :=
  [("filename", .str "note.txt"), ("size", .nat 0), ("type", .null),
   ("lastModified", .str "t0"),
   ("author", .str "Not available for this file type"),
   ("createdDate", .null), ("modifiedDate", .null)]

/-- The timestamp field names of the response (the metadata key
`lastModified` carries `upload_time`, and `analysisTime` is the
assembly timestamp of main.py line 117). -/
def timestampKeys : List String := ["lastModified", "upload_time", "analysisTime"]

/-- Null out the timestamp-valued bindings of a metadata dict. -/
def Dict.scrub (d : Dict) : Dict :=
  d.map (fun p => if p.1 ∈ timestampKeys then (p.1, Value.null) else p)

/-- Erase the timestamp components of a success body. -/
def scrubBody (b : SuccessBody) : SuccessBody :=
  { b with metadata := Dict.scrub b.metadata, analysisTime := "" }

/-- Erase the timestamp components of a response. -/
def scrubResponse : Except (Nat × String) SuccessBody → Except (Nat × String) SuccessBody
  | .ok b => .ok (scrubBody b)
  | .error e => .error e

/-! ## Theorems -/

theorem Dict.find_append (xs ys : Dict) (k : String) :
    Dict.find (xs ++ ys) k =
      match Dict.find xs k with
      | some v => some v
      | none => Dict.find ys k := by
  induction xs with
  | nil => simp [Dict.find]
  | cons p rest ih =>
    by_cases h : p.1 = k <;> simp [Dict.find, h, ih]

theorem Dict.find_map_override (a b : Dict) (k : String) :
    Dict.find (a.map (fun p => (p.1, (Dict.find b p.1).getD p.2))) k =
      (Dict.find a k).map (fun v => (Dict.find b k).getD v) := by
  induction a with
  | nil => simp [Dict.find]
  | cons p rest ih =>
    by_cases h : p.1 = k <;> simp [Dict.find, h, ih]

theorem Dict.find_filter_isNone (a b : Dict) (k : String) :
    Dict.find (b.filter (fun p => (Dict.find a p.1).isNone)) k =
      if (Dict.find a k).isNone then Dict.find b k else none := by
  induction b with
  | nil => simp [Dict.find]
  | cons p rest ih =>
    by_cases hq : (Dict.find a p.1).isNone
    · by_cases h : p.1 = k
      · subst h
        simp [List.filter_cons, hq, Dict.find]
      · simp [List.filter_cons, hq, Dict.find, h, ih]
    · by_cases h : p.1 = k
      · subst h
        simp [List.filter_cons, hq, Dict.find, ih]
      · simp [List.filter_cons, hq, Dict.find, h, ih]

/-- Lookup into a Python merge `\x7b**a, **b\x7d`: the value from `b` when `b`
binds the key, else the value from `a`. -/
theorem Dict.find_merge (a b : Dict) (k : String) :
    Dict.find (Dict.merge a b) k =
      match Dict.find a k with
      | some v => some ((Dict.find b k).getD v)
      | none => Dict.find b k := by
  unfold Dict.merge
  rw [Dict.find_append, Dict.find_map_override, Dict.find_filter_isNone]
  cases h : Dict.find a k <;> simp [h]

/-- A key bound in `a` stays bound in `\x7b**a, **b\x7d`. -/
theorem Dict.find_merge_isSome_left (a b : Dict) (k : String)
    (h : (Dict.find a k).isSome) : (Dict.find (Dict.merge a b) k).isSome := by
  rw [Dict.find_merge]
  cases ha : Dict.find a k with
  | some v => simp
  | none => rw [ha] at h; simp at h

/-- A key bound in `b` takes the value from `b` in `\x7b**a, **b\x7d`. -/
theorem Dict.find_merge_right (a b : Dict) (k : String) (v : Value)
    (h : Dict.find b k = some v) : Dict.find (Dict.merge a b) k = some v := by
  rw [Dict.find_merge]
  cases ha : Dict.find a k <;> simp [h]

theorem bigContent_length : bigContent.length = maxFileSize + 1 :=
  List.length_replicate _ _

theorem maxContent_length : maxContent.length = maxFileSize :=
  List.length_replicate _ _

/-- C1 counterexample: with every collaborator succeeding but
`shutil.copyfileobj` raising (main.py line 72), the temporary file has
been created (`delete=False` at line 71) yet the inner `try`/`finally`
of lines 75-124 is never entered, so the file is still on disk after
the handler returns — refuting the claim that the file is absent on
every exit path after creation. -/
theorem C1_counterexample :
    (analyze_document ⟨"doc.pdf", [1, 2], none⟩ envCopyFault "t0" "t1").tempCreated = true ∧
    (analyze_document ⟨"doc.pdf", [1, 2], none⟩ envCopyFault "t0" "t1").tempExistsAfter = true ∧
    (analyze_document ⟨"doc.pdf", [1, 2], none⟩ envCopyFault "t0" "t1").response =
      .error (500, "Analysis failed: No space left on device") :=
  ⟨rfl, rfl, rfl⟩

/-- C1 (amended): provided the copy of the upload into the temporary
file does not fault and the deletion primitive itself succeeds, the
temporary file does not exist on disk after the run returns, on every
exit path: normal success, a fault raised by any metadata extractor or
content analyzer, and any other fault raised inside the guarded block
of main.py lines 75-118. -/
theorem C1_cleanup_invariant (u : Upload) (env : Env) (t0 t1 : String)
    (hcopy : env.copyFault = none) (hunlink : env.unlinkFault = none) :
    (analyze_document u env t0 t1).tempExistsAfter = false := by
  unfold analyze_document
  rw [hcopy, hunlink]
  by_cases h1 : u.filename = ""
  · rw [if_pos h1]
  · rw [if_neg h1]
    by_cases h2 : u.content.length > maxFileSize
    · rw [if_pos h2]
    · rw [if_neg h2]
      cases hb : analysisBody u.content (fileInfoOf u env t0) env t1 <;> rfl

/-- C1 witness: the amended cleanup invariant applied to a concrete
run in which the text analyzer faults. -/
theorem C1_cleanup_invariant_witness :
    (analyze_document ⟨"note.txt", [1], none⟩ envTextFault "t0" "t1").tempExistsAfter = false :=
  C1_cleanup_invariant ⟨"note.txt", [1], none⟩ envTextFault "t0" "t1" rfl rfl

/-- C2 evaluation at the failing inputs: the validation
`HTTPException(400, ...)` raised at main.py line 58 or 65 is itself a
subclass of `Exception`, so the handler at line 126 catches it and
line 128 re-raises it as a 500 whose detail wraps `str(e)`.  The
endpoint therefore answers 500, not 400, for an empty filename and for
an oversized payload. -/
theorem C2_validation_reported_as_500 :
    (analyze_document ⟨"", [], none⟩ envOk "t0" "t1").response =
      .error (500, "Analysis failed: 400: No file provided") ∧
    (analyze_document ⟨"big.bin", bigContent, none⟩ envOk "t0" "t1").response =
      .error (500, "Analysis failed: 400: File too large (max 50MB)") := by
  constructor
  · rfl
  · unfold analyze_document
    rw [if_neg (by decide),
      if_pos (by rw [show (⟨"big.bin", bigContent, none⟩ : Upload).content = bigContent from rfl,
        bigContent_length]; exact Nat.lt_succ_self _)]
    rfl

/-- C4: an upload failing validation (empty filename, or size above
the 50 MiB ceiling) is rejected at main.py line 57 or 64, before the
temporary file of line 71 is created: no temporary resource is created
or left on disk, and the response is an error. -/
theorem C4_validation_before_temp (u : Upload) (env : Env) (t0 t1 : String)
    (h : u.filename = "" ∨ u.content.length > maxFileSize) :
    (analyze_document u env t0 t1).tempCreated = false ∧
    (analyze_document u env t0 t1).tempExistsAfter = false ∧
    isOkE (analyze_document u env t0 t1).response = false := by
  unfold analyze_document
  rcases h with h | h
  · rw [if_pos h]
    exact ⟨rfl, rfl, rfl⟩
  · by_cases h1 : u.filename = ""
    · rw [if_pos h1]
      exact ⟨rfl, rfl, rfl⟩
    · rw [if_neg h1, if_pos h]
      exact ⟨rfl, rfl, rfl⟩

/-- C4 witness: the empty-filename upload. -/
theorem C4_validation_before_temp_witness :
    (analyze_document ⟨"", [], none⟩ envOk "t0" "t1").tempCreated = false ∧
    (analyze_document ⟨"", [], none⟩ envOk "t0" "t1").tempExistsAfter = false ∧
    isOkE (analyze_document ⟨"", [], none⟩ envOk "t0" "t1").response = false :=
  C4_validation_before_temp ⟨"", [], none⟩ envOk "t0" "t1" (Or.inl rfl)

/-- C6 counterexample: the same request succeeds when `os.unlink`
succeeds, but when `os.unlink` raises in the `finally` at main.py line
123 the exception replaces the pending successful return and the outer
handler turns it into a 500 — the cleanup fault does change the
primary outcome, refuting the claim that it is only logged. -/
theorem C6_counterexample :
    isOkE (analyze_document ⟨"note.txt", [1], none⟩ envOk "t0" "t1").response = true ∧
    (analyze_document ⟨"note.txt", [1], none⟩ envUnlinkFault "t0" "t1").response =
      .error (500, "Analysis failed: Permission denied") :=
  ⟨rfl, rfl⟩

/-- C6 (amended): if deleting the temporary file during cleanup fails,
the cleanup exception propagates out of the `finally`, is caught by
the outer handler, and the request answers HTTP 500 carrying the
cleanup message — superseding the primary outcome, whether that was a
successful analysis or an analysis error — and the temporary file
remains on disk. -/
theorem C6_cleanup_fault_escalates (u : Upload) (env : Env) (t0 t1 msg : String)
    (hname : u.filename ≠ "") (hsize : ¬ u.content.length > maxFileSize)
    (hcopy : env.copyFault = none) (hunlink : env.unlinkFault = some msg) :
    (analyze_document u env t0 t1).response =
      .error (500, "Analysis failed: " ++ msg) ∧
    (analyze_document u env t0 t1).tempExistsAfter = true := by
  unfold analyze_document
  rw [if_neg hname, if_neg hsize, hcopy, hunlink]
  exact ⟨rfl, rfl⟩

/-- C6 witness: the amended escalation behavior at a concrete run. -/
theorem C6_cleanup_fault_escalates_witness :
    (analyze_document ⟨"note.txt", [1], none⟩ envUnlinkFault "t0" "t1").response =
      .error (500, "Analysis failed: " ++ "Permission denied") ∧
    (analyze_document ⟨"note.txt", [1], none⟩ envUnlinkFault "t0" "t1").tempExistsAfter = true :=
  C6_cleanup_fault_escalates ⟨"note.txt", [1], none⟩ envUnlinkFault "t0" "t1"
    "Permission denied" (by decide) (by decide) rfl rfl

/-- C8: every upload with a non-empty filename and at most 50 MiB of
content (the strict `>` comparison at main.py line 64 admits exactly
50 MiB) passes validation, so the temporary file is created, and the
`size` entry of `file_info` (line 79) is exactly the byte length of
the uploaded content (line 62). -/
theorem C8_valid_upload_ingested (u : Upload) (env : Env) (t0 t1 : String)
    (hname : u.filename ≠ "") (hsize : u.content.length ≤ maxFileSize) :
    (analyze_document u env t0 t1).tempCreated = true ∧
    (fileInfoOf u env t0).size = u.content.length := by
  refine ⟨?_, rfl⟩
  unfold analyze_document
  rw [if_neg hname, if_neg (by omega : ¬ u.content.length > maxFileSize)]
  cases hc : env.copyFault with
  | some m => rfl
  | none =>
    cases hu : env.unlinkFault with
    | some m => rfl
    | none => cases hb : analysisBody u.content (fileInfoOf u env t0) env t1 <;> rfl

/-- C8 witness: an upload of exactly 50 MiB is ingested. -/
theorem C8_valid_upload_ingested_witness :
    (analyze_document ⟨"big.bin", maxContent, none⟩ envOk "t0" "t1").tempCreated = true ∧
    (fileInfoOf ⟨"big.bin", maxContent, none⟩ envOk "t0").size = maxContent.length :=
  C8_valid_upload_ingested ⟨"big.bin", maxContent, none⟩ envOk "t0" "t1"
    (by decide) (le_of_eq maxContent_length)

/-- C3 counterexample: in `\x7b**base_metadata, **pdf_metadata\x7d` (main.py
line 144) the extractor dict overrides the base dict on collision, so
a PDF extractor that returns a `filename` binding replaces the base
`filename` value — refuting the claim that base fields win. -/
theorem C3_counterexample :
    metadataFind (extract_metadata [1, 2] fiPdf envPdfOverride) "filename" =
      some (.str "evil.pdf") ∧
    fiPdf.filename = "real.pdf" :=
  ⟨rfl, rfl⟩

/-- C3 (amended): on a key collision it is the selected extractor's
output that takes precedence, on the PDF merge (main.py line 144) and
on the DOCX merge (line 148) alike: for any key the extractor result
binds, the merged metadata holds the extractor value; base fields
survive only for keys the extractor does not emit. -/
theorem C3_extractor_precedence (content : List Nat) (fi : FileInfo) (env : Env)
    (m : Dict) (k : String) (v : Value)
    (hm : (fi.type = some "application/pdf" ∧ env.pdfExtract content = .ok m) ∨
      ((fi.type = some wordMimeDocx ∨ fi.type = some wordMimeDoc) ∧
        env.docxExtract content = .ok m))
    (hk : Dict.find m k = some v) :
    metadataFind (extract_metadata content fi env) k = some v := by
  rcases hm with ⟨htype, hm⟩ | ⟨htype, hm⟩
  · simp only [extract_metadata, htype, hm, if_true]
    simp only [metadataFind]
    exact Dict.find_merge_right _ _ _ _ hk
  · have hnotpdf : ¬ fi.type = some "application/pdf" := by
      rcases htype with h | h <;> rw [h] <;> simp [wordMimeDocx, wordMimeDoc]
    simp only [extract_metadata]
    rw [if_neg hnotpdf, if_pos htype, hm]
    simp only [metadataFind]
    exact Dict.find_merge_right _ _ _ _ hk

/-- C3 witness: the amended precedence rule at concrete colliding
extractor outputs, on the PDF branch and on the DOCX branch. -/
theorem C3_extractor_precedence_witness :
    metadataFind (extract_metadata [1, 2] fiPdf envPdfOverride) "filename" =
      some (Value.str "evil.pdf") ∧
    metadataFind (extract_metadata [1, 2] fiDocx envDocxOverride) "filename" =
      some (Value.str "evil.docx") :=
  ⟨C3_extractor_precedence [1, 2] fiPdf envPdfOverride [("filename", .str "evil.pdf")]
      "filename" (.str "evil.pdf") (Or.inl ⟨rfl, rfl⟩) rfl,
   C3_extractor_precedence [1, 2] fiDocx envDocxOverride [("filename", .str "evil.docx")]
      "filename" (.str "evil.docx") (Or.inr ⟨Or.inl rfl, rfl⟩) rfl⟩

/-- C5: metadata-extractor dispatch (main.py lines 139-156) is by
exact string equality on `file_info["type"]`: `application/pdf`
selects the PDF extractor, either Word-processing MIME string selects
the DOCX extractor, and every other declared type — including an
absent one — yields the merged base dict with the literal placeholder
`author` and null `createdDate`/`modifiedDate`. -/
theorem C5_dispatch (content : List Nat) (fi : FileInfo) (env : Env) :
    (fi.type = some "application/pdf" →
      extract_metadata content fi env =
        (env.pdfExtract content).map (fun m => Dict.merge (baseMetadata fi) m)) ∧
    ((fi.type = some wordMimeDocx ∨ fi.type = some wordMimeDoc) →
      extract_metadata content fi env =
        (env.docxExtract content).map (fun m => Dict.merge (baseMetadata fi) m)) ∧
    (fi.type ≠ some "application/pdf" → fi.type ≠ some wordMimeDocx →
      fi.type ≠ some wordMimeDoc →
      metadataFind (extract_metadata content fi env) "author" =
          some (.str "Not available for this file type") ∧
        metadataFind (extract_metadata content fi env) "createdDate" = some .null ∧
        metadataFind (extract_metadata content fi env) "modifiedDate" = some .null) := by
  refine ⟨?_, ?_, ?_⟩
  · intro h
    simp only [extract_metadata, h, if_true]
    cases hp : env.pdfExtract content <;> rfl
  · intro h
    have hnotpdf : ¬ fi.type = some "application/pdf" := by
      rcases h with h | h <;> rw [h] <;> simp [wordMimeDocx, wordMimeDoc]
    simp only [extract_metadata]
    rw [if_neg hnotpdf, if_pos h]
    cases hd : env.docxExtract content <;> rfl
  · intro h1 h2 h3
    simp only [extract_metadata]
    rw [if_neg h1, if_neg (not_or.mpr ⟨h2, h3⟩)]
    refine ⟨?_, ?_, ?_⟩ <;>
      · simp only [metadataFind]
        rw [Dict.find_merge]
        simp [baseMetadata, Dict.find]

/-- C5 witness: the three dispatch branches at concrete inputs (a PDF
declared type, the DOCX MIME string, and an absent type). -/
theorem C5_dispatch_witness :
    (extract_metadata [] fiPdf envOk =
      (envOk.pdfExtract []).map (fun m => Dict.merge (baseMetadata fiPdf) m)) ∧
    (extract_metadata [] fiDocx envOk =
      (envOk.docxExtract []).map (fun m => Dict.merge (baseMetadata fiDocx) m)) ∧
    (metadataFind (extract_metadata [] fiPlain envOk) "author" =
        some (.str "Not available for this file type") ∧
      metadataFind (extract_metadata [] fiPlain envOk) "createdDate" = some .null ∧
      metadataFind (extract_metadata [] fiPlain envOk) "modifiedDate" = some .null) :=
  ⟨(C5_dispatch [] fiPdf envOk).1 rfl,
   (C5_dispatch [] fiDocx envOk).2.1 (Or.inl rfl),
   (C5_dispatch [] fiPlain envOk).2.2 (by decide) (by decide) (by decide)⟩

/-- C10: on every dispatch branch the metadata returned by
`extract_metadata` is `\x7b**base_metadata, ...\x7d`, and a Python dict merge
can overwrite but never remove a key of the first dict, so the four
base keys `filename`, `size`, `type` and `lastModified` are bound in
every successful result. -/
theorem C10_base_keys_present (content : List Nat) (fi : FileInfo) (env : Env) (d : Dict)
    (h : extract_metadata content fi env = .ok d) :
    (Dict.find d "filename").isSome ∧ (Dict.find d "size").isSome ∧
    (Dict.find d "type").isSome ∧ (Dict.find d "lastModified").isSome := by
  have base : ∀ m : Dict,
      (Dict.find (Dict.merge (baseMetadata fi) m) "filename").isSome ∧
      (Dict.find (Dict.merge (baseMetadata fi) m) "size").isSome ∧
      (Dict.find (Dict.merge (baseMetadata fi) m) "type").isSome ∧
      (Dict.find (Dict.merge (baseMetadata fi) m) "lastModified").isSome := by
    intro m
    refine ⟨?_, ?_, ?_, ?_⟩ <;>
      · apply Dict.find_merge_isSome_left
        simp [baseMetadata, Dict.find]
  simp only [extract_metadata] at h
  by_cases h1 : fi.type = some "application/pdf"
  · rw [if_pos h1] at h
    cases hp : env.pdfExtract content with
    | ok m => rw [hp] at h; injection h with hd; subst hd; exact base m
    | error e => rw [hp] at h; cases h
  · rw [if_neg h1] at h
    by_cases h2 : fi.type = some wordMimeDocx ∨ fi.type = some wordMimeDoc
    · rw [if_pos h2] at h
      cases hd : env.docxExtract content with
      | ok m => rw [hd] at h; injection h with hd2; subst hd2; exact base m
      | error e => rw [hd] at h; cases h
    · rw [if_neg h2] at h
      injection h with hd
      subst hd
      exact base _

/-- C10 witness: the Generic branch at a concrete input, with the
merged dict spelled out. -/
theorem C10_base_keys_present_witness :
    (Dict.find dPlain "filename").isSome ∧ (Dict.find dPlain "size").isSome ∧
    (Dict.find dPlain "type").isSome ∧ (Dict.find dPlain "lastModified").isSome :=
  C10_base_keys_present [] fiPlain envOk dPlain rfl

/-- C7 counterexample: when an analyzer faults and `os.unlink` then
also faults during cleanup, the exception raised in the `finally` at
main.py line 123 replaces the in-flight analyzer exception, so the 500
carries the cleanup message rather than the original cause's message —
refuting the claim that any extractor/analyzer fault propagates
carrying its own message. -/
theorem C7_counterexample :
    envTextUnlinkFault.textAnalyze [1]
        (fileInfoOf ⟨"note.txt", [1], none⟩ envTextUnlinkFault "t0") =
      .error "text analyzer crashed" ∧
    (analyze_document ⟨"note.txt", [1], none⟩ envTextUnlinkFault "t0" "t1").response =
      .error (500, "Analysis failed: Permission denied") ∧
    "Analysis failed: Permission denied" ≠ "Analysis failed: " ++ "text analyzer crashed" :=
  ⟨rfl, rfl, by decide⟩

/-- C7 (amended): when the copy into the temporary file and the
cleanup deletion succeed, the first fault raised by the metadata
extractor or by one of the three content analyzers (awaited
sequentially at main.py lines 95-107) propagates to the outer handler
and the endpoint answers a single HTTP 500 whose detail carries the
original message; no Report body is returned, so all sub-results
computed before the fault are discarded.  If the cleanup deletion also
fails, the 500 carries the cleanup message instead (see the
counterexample). -/
theorem C7_analyzer_fault_propagates (u : Upload) (env : Env) (t0 t1 msg : String)
    (hname : u.filename ≠ "") (hsize : ¬ u.content.length > maxFileSize)
    (hcopy : env.copyFault = none) (hunlink : env.unlinkFault = none)
    (hfault :
      extract_metadata u.content (fileInfoOf u env t0) env = .error msg ∨
      (isOkE (extract_metadata u.content (fileInfoOf u env t0) env) = true ∧
        env.textAnalyze u.content (fileInfoOf u env t0) = .error msg) ∨
      (isOkE (extract_metadata u.content (fileInfoOf u env t0) env) = true ∧
        isOkE (env.textAnalyze u.content (fileInfoOf u env t0)) = true ∧
        env.imageAnalyze u.content (fileInfoOf u env t0) = .error msg) ∨
      (isOkE (extract_metadata u.content (fileInfoOf u env t0) env) = true ∧
        isOkE (env.textAnalyze u.content (fileInfoOf u env t0)) = true ∧
        isOkE (env.imageAnalyze u.content (fileInfoOf u env t0)) = true ∧
        env.signatureAnalyze u.content (fileInfoOf u env t0) = .error msg)) :
    (analyze_document u env t0 t1).response =
      .error (500, "Analysis failed: " ++ msg) := by
  have hbody : analysisBody u.content (fileInfoOf u env t0) env t1 = .error msg := by
    unfold analysisBody
    rcases hfault with h | ⟨h1, h⟩ | ⟨h1, h2, h⟩ | ⟨h1, h2, h3, h⟩
    · rw [h]
    · cases hm : extract_metadata u.content (fileInfoOf u env t0) env with
      | error e => rw [hm] at h1; simp [isOkE] at h1
      | ok m => rw [h]
    · cases hm : extract_metadata u.content (fileInfoOf u env t0) env with
      | error e => rw [hm] at h1; simp [isOkE] at h1
      | ok m =>
        cases ht : env.textAnalyze u.content (fileInfoOf u env t0) with
        | error e => rw [ht] at h2; simp [isOkE] at h2
        | ok ta => rw [h]
    · cases hm : extract_metadata u.content (fileInfoOf u env t0) env with
      | error e => rw [hm] at h1; simp [isOkE] at h1
      | ok m =>
        cases ht : env.textAnalyze u.content (fileInfoOf u env t0) with
        | error e => rw [ht] at h2; simp [isOkE] at h2
        | ok ta =>
          cases hi : env.imageAnalyze u.content (fileInfoOf u env t0) with
          | error e => rw [hi] at h3; simp [isOkE] at h3
          | ok ia => rw [h]
  unfold analyze_document
  rw [if_neg hname, if_neg hsize, hcopy, hunlink, hbody]
  rfl

/-- C7 witness: a faulting text analyzer at a concrete run. -/
theorem C7_analyzer_fault_propagates_witness :
    (analyze_document ⟨"note.txt", [1], none⟩ envTextFault "t0" "t1").response =
      .error (500, "Analysis failed: " ++ "text analyzer crashed") :=
  C7_analyzer_fault_propagates ⟨"note.txt", [1], none⟩ envTextFault "t0" "t1"
    "text analyzer crashed" (by decide) (by decide) rfl rfl
    (Or.inr (Or.inl ⟨rfl, rfl⟩))

theorem baseMetadata_find_isNone (fi fi2 : FileInfo) (k : String) :
    (Dict.find (baseMetadata fi) k).isNone = (Dict.find (baseMetadata fi2) k).isNone := by
  simp only [baseMetadata, Dict.find]
  split_ifs <;> rfl

theorem scrub_merge_base (fi fi2 : FileInfo) (m : Dict)
    (hfn : fi.filename = fi2.filename) (hsz : fi.size = fi2.size)
    (hty : fi.type = fi2.type) :
    Dict.scrub (Dict.merge (baseMetadata fi) m) =
      Dict.scrub (Dict.merge (baseMetadata fi2) m) := by
  unfold Dict.merge Dict.scrub
  rw [List.map_append, List.map_append]
  congr 1
  · simp [baseMetadata, timestampKeys, hfn, hsz, hty]
  · congr 1
    apply List.filter_congr
    intro p _
    exact baseMetadata_find_isNone fi fi2 p.1

theorem extract_metadata_scrub_congr (c : List Nat) (fi fi2 : FileInfo) (env : Env)
    (hfn : fi.filename = fi2.filename) (hsz : fi.size = fi2.size)
    (hty : fi.type = fi2.type) :
    (extract_metadata c fi env).map Dict.scrub =
      (extract_metadata c fi2 env).map Dict.scrub := by
  simp only [extract_metadata]
  rw [hty]
  by_cases h1 : fi2.type = some "application/pdf"
  · rw [if_pos h1, if_pos h1]
    cases hp : env.pdfExtract c with
    | ok m => simp [Except.map, scrub_merge_base fi fi2 m hfn hsz hty]
    | error e => rfl
  · rw [if_neg h1, if_neg h1]
    by_cases h2 : fi2.type = some wordMimeDocx ∨ fi2.type = some wordMimeDoc
    · rw [if_pos h2, if_pos h2]
      cases hd : env.docxExtract c with
      | ok m => simp [Except.map, scrub_merge_base fi fi2 m hfn hsz hty]
      | error e => rfl
    · rw [if_neg h2, if_neg h2]
      simp [Except.map, scrub_merge_base fi fi2 _ hfn hsz hty]

theorem analysisBody_scrub_congr (c : List Nat) (fi fi2 : FileInfo) (env : Env)
    (t t2 : String)
    (hfn : fi.filename = fi2.filename) (hsz : fi.size = fi2.size)
    (hty : fi.type = fi2.type)
    (htext : env.textAnalyze c fi = env.textAnalyze c fi2)
    (himg : env.imageAnalyze c fi = env.imageAnalyze c fi2)
    (hsig : env.signatureAnalyze c fi = env.signatureAnalyze c fi2) :
    (analysisBody c fi env t).map scrubBody =
      (analysisBody c fi2 env t2).map scrubBody := by
  unfold analysisBody
  have hm := extract_metadata_scrub_congr c fi fi2 env hfn hsz hty
  cases h1 : extract_metadata c fi env with
  | error e =>
    cases h2 : extract_metadata c fi2 env with
    | error e2 =>
      rw [h1, h2] at hm
      simp only [Except.map, Except.error.injEq] at hm
      rw [hm]
    | ok m2 =>
      rw [h1, h2] at hm
      simp [Except.map] at hm
  | ok m =>
    cases h2 : extract_metadata c fi2 env with
    | error e2 =>
      rw [h1, h2] at hm
      simp [Except.map] at hm
    | ok m2 =>
      rw [h1, h2] at hm
      simp only [Except.map, Except.ok.injEq] at hm
      rw [htext]
      cases ht : env.textAnalyze c fi2 with
      | error e => rfl
      | ok ta =>
        rw [himg]
        cases hi : env.imageAnalyze c fi2 with
        | error e => rfl
        | ok ia =>
          rw [hsig]
          cases hs : env.signatureAnalyze c fi2 with
          | error e => rfl
          | ok sa => simp [Except.map, scrubBody, hm]

/-- C9: the pipeline is deterministic in its inputs.  Two runs on the
same upload, with the collaborators fixed functions of the temporary
file content and of the non-timestamp file-info fields, produce
responses that are structurally identical once the timestamp fields
(`lastModified`, `analysisTime`) are erased. -/
theorem C9_deterministic (u : Upload) (env : Env) (t0 t1 s0 s1 : String)
    (htext : ∀ (c : List Nat) (fi fi2 : FileInfo), fi.filename = fi2.filename →
      fi.size = fi2.size → fi.type = fi2.type →
      env.textAnalyze c fi = env.textAnalyze c fi2)
    (himg : ∀ (c : List Nat) (fi fi2 : FileInfo), fi.filename = fi2.filename →
      fi.size = fi2.size → fi.type = fi2.type →
      env.imageAnalyze c fi = env.imageAnalyze c fi2)
    (hsig : ∀ (c : List Nat) (fi fi2 : FileInfo), fi.filename = fi2.filename →
      fi.size = fi2.size → fi.type = fi2.type →
      env.signatureAnalyze c fi = env.signatureAnalyze c fi2) :
    scrubResponse (analyze_document u env t0 t1).response =
      scrubResponse (analyze_document u env s0 s1).response := by
  unfold analyze_document
  by_cases h1 : u.filename = ""
  · rw [if_pos h1, if_pos h1]
  · rw [if_neg h1, if_neg h1]
    by_cases h2 : u.content.length > maxFileSize
    · rw [if_pos h2, if_pos h2]
    · rw [if_neg h2, if_neg h2]
      cases hc : env.copyFault with
      | some m => rfl
      | none =>
        cases hu : env.unlinkFault with
        | some m => rfl
        | none =>
          have hb := analysisBody_scrub_congr u.content (fileInfoOf u env t0)
            (fileInfoOf u env s0) env t1 s1 rfl rfl rfl
            (htext u.content _ _ rfl rfl rfl)
            (himg u.content _ _ rfl rfl rfl)
            (hsig u.content _ _ rfl rfl rfl)
          cases hx : analysisBody u.content (fileInfoOf u env t0) env t1 with
          | ok b =>
            cases hy : analysisBody u.content (fileInfoOf u env s0) env s1 with
            | ok b2 =>
              rw [hx, hy] at hb
              simp only [Except.map, Except.ok.injEq] at hb
              simp [scrubResponse, hb]
            | error e =>
              rw [hx, hy] at hb
              simp [Except.map] at hb
          | error e =>
            cases hy : analysisBody u.content (fileInfoOf u env s0) env s1 with
            | ok b2 =>
              rw [hx, hy] at hb
              simp [Except.map] at hb
            | error e2 =>
              rw [hx, hy] at hb
              simp only [Except.map, Except.error.injEq] at hb
              rw [hb]

/-- C9 witness: two runs of the same upload under `envOk` with
different wall-clock timestamps agree after timestamp erasure. -/
theorem C9_deterministic_witness :
    scrubResponse (analyze_document ⟨"note.txt", [1], none⟩ envOk "t0" "t1").response =
      scrubResponse (analyze_document ⟨"note.txt", [1], none⟩ envOk "s0" "s1").response :=
  C9_deterministic ⟨"note.txt", [1], none⟩ envOk "t0" "t1" "s0" "s1"
    (fun _ _ _ _ _ _ => rfl) (fun _ _ _ _ _ _ => rfl) (fun _ _ _ _ _ _ => rfl)

end DocForgery
